import Mathlib

/-!
Verification of the ticket-system core: the comment-driven ticket state
machine (`routes/comments.ts`), the Zendesk import (`routes/zendesk.ts`),
the settings update and the per-ticket agent contribution report
(`routes/settings.ts` / analytics). The definitions below are a shallow
embedding of those handlers: Prisma rows become Lean structures, the
database becomes an explicit `DBState`, timestamps become `Nat`, and
fallible handlers return `Except ApiError`.
-/

/-- User roles, as the `role` column of the `User` table. -/
inductive Role
  | USER
  | AGENT
  | ADMIN
deriving DecidableEq, Repr

/-- Ticket lifecycle statuses, as the `TicketStatus` Prisma enum. -/
inductive TicketStatus
  | NEW
  | OPEN
  | PENDING
  | ON_HOLD
  | SOLVED
  | CLOSED
deriving DecidableEq, Repr

/-- The Ticket row fields the comment handler and the import touch. -/
structure Ticket where
  id : String
  requesterId : String
  status : TicketStatus
  firstResponseAt : Option Nat
  solvedAt : Option Nat
  updatedAt : Nat
deriving DecidableEq, Repr

/-- A stored comment row (fields relevant to the handlers). -/
structure Comment where
  ticketId : String
  authorId : String
  isInternal : Bool
  createdAt : Nat
deriving DecidableEq, Repr

/-- An ActivityLog entry as written by the comment handler
(`action: 'comment_added', details: { isInternal }`). -/
structure ActivityEntry where
  ticketId : String
  userId : Option String
  action : String
  isInternal : Bool
deriving DecidableEq, Repr

/-- An AgentSession row. -/
structure AgentSession where
  id : String
  agentId : String
  loginAt : Nat
  logoutAt : Option Nat
  replyCount : Nat
deriving DecidableEq, Repr

/-- The slice of the database the comment handler reads and writes. -/
structure DBState where
  tickets : List Ticket
  comments : List Comment
  activities : List ActivityEntry
  sessions : List AgentSession
deriving DecidableEq, Repr

/-- The authenticated comment-creation request
(`ticketId`, `req.userId`, `req.userRole`, `isInternal` from the body). -/
structure CommentRequest where
  ticketId : String
  userId : String
  userRole : Role
  isInternal : Bool
deriving DecidableEq, Repr

/-- Error taxonomy of the handlers (HTTP 404 / 403 / 400). -/
inductive ApiError
  | NotFound
  | Forbidden
  | ValidationError
deriving DecidableEq, Repr

/-- `userRole === 'AGENT' || userRole === 'ADMIN'`. -/
def isAgentOrAdmin : Role → Bool
  | Role.AGENT => true
  | Role.ADMIN => true
  | Role.USER => false

/-- `prisma.ticket.findUnique({ where: { id: ticketId } })`. -/
def findTicket (st : DBState) (tid : String) : Option Ticket :=
  st.tickets.find? (fun t => t.id == tid)

/-- The status written by the comment handler: an agent/admin non-internal
reply forces PENDING, an internal note keeps the old status, a USER reply
reopens a PENDING ticket to OPEN and otherwise changes nothing. -/
def commentStatusUpdate (role : Role) (isInternalNote : Bool)
    (old : TicketStatus) : TicketStatus :=
  if isAgentOrAdmin role = true then
    if isInternalNote = false then TicketStatus.PENDING else old
  else if role = Role.USER then
    if old = TicketStatus.PENDING then TicketStatus.OPEN else old
  else old

/-- `if ((AGENT || ADMIN) && !ticket.firstResponseAt) updateData.firstResponseAt = new Date()`. -/
def commentFirstResponseUpdate (role : Role) (old : Option Nat)
    (now : Nat) : Option Nat :=
  if isAgentOrAdmin role = true ∧ old = none then some now else old

/-- The ticket row after `prisma.ticket.update` in the comment handler. -/
def applyCommentTicketUpdate (t : Ticket) (req : CommentRequest)
    (isInternalNote : Bool) (now : Nat) : Ticket :=
  { t with
    updatedAt := now
    firstResponseAt := commentFirstResponseUpdate req.userRole t.firstResponseAt now
    status := commentStatusUpdate req.userRole isInternalNote t.status }

/-- `prisma.comment.create`: appends the comment row, with the coerced
internal flag, and returns it. -/
def commentInsertStep (st : DBState) (req : CommentRequest)
    (isInternalNote : Bool) (now : Nat) : DBState × Comment :=
  let c : Comment :=
    { ticketId := req.ticketId, authorId := req.userId
      isInternal := isInternalNote, createdAt := now }
  ({ st with comments := st.comments ++ [c] }, c)

/-- `prisma.ticket.update` with the nested `activities.create`: rewrites the
ticket row with that id and appends one `comment_added` activity entry. -/
def ticketUpdateStep (st : DBState) (t : Ticket) (req : CommentRequest)
    (isInternalNote : Bool) (now : Nat) : DBState :=
  let updated := applyCommentTicketUpdate t req isInternalNote now
  { st with
    tickets := st.tickets.map (fun u => if u.id == req.ticketId then updated else u)
    activities := st.activities ++
      [{ ticketId := req.ticketId, userId := some req.userId
         action := "comment_added", isInternal := isInternalNote }] }

/-- `prisma.agentSession.findFirst({ where: { agentId, logoutAt: null },
orderBy: { loginAt: 'desc' } })`: the open session with the latest login. -/
def activeSession (sessions : List AgentSession) (agentId : String) :
    Option AgentSession :=
  (sessions.filter (fun s => s.agentId == agentId && s.logoutAt.isNone)).foldl
    (fun best s =>
      match best with
      | none => some s
      | some b => if b.loginAt < s.loginAt then some s else some b) none

/-- When the author is an agent/admin with an active session, that session's
`replyCount` is incremented; otherwise the state is untouched. -/
def sessionIncrementStep (st : DBState) (req : CommentRequest) : DBState :=
  if isAgentOrAdmin req.userRole = true then
    match activeSession st.sessions req.userId with
    | some s =>
        { st with sessions := st.sessions.map (fun u =>
            if u.id == s.id then { u with replyCount := u.replyCount + 1 } else u) }
    | none => st
  else st

/-- The comment-creation handler (`router.post('/')` of `routes/comments.ts`):
ticket lookup (404 when absent), internal-flag coercion
(`isInternal && (AGENT || ADMIN)`), requester ownership check (403), then the
comment insert, the ticket update with activity append, and the session
reply-count increment, in that order. Mention/notification writes are
omitted: they touch no ticket, comment, activity or session field. -/
def createComment (st : DBState) (req : CommentRequest) (now : Nat) :
    Except ApiError (DBState × Comment) :=
  match findTicket st req.ticketId with
  | none => Except.error ApiError.NotFound
  | some ticket =>
    let isInternalNote := req.isInternal && isAgentOrAdmin req.userRole
    if req.userRole = Role.USER ∧ ticket.requesterId ≠ req.userId then
      Except.error ApiError.Forbidden
    else
      let s1 := commentInsertStep st req isInternalNote now
      let s2 := ticketUpdateStep s1.1 ticket req isInternalNote now
      let s3 := sessionIncrementStep s2 req
      Except.ok (s3, s1.2)

/-- The database state the comment handler leaves behind when
`prisma.ticket.update` throws after `prisma.comment.create` has committed:
the handler issues the two writes as separate sequential awaits with no
surrounding transaction, and its catch block returns a 500 without
compensating, so exactly the comment insert persists. `none` when the
handler errors before any write. -/
def createCommentTicketUpdateFails (st : DBState) (req : CommentRequest)
    (now : Nat) : Option DBState :=
  match findTicket st req.ticketId with
  | none => none
  | some ticket =>
    let isInternalNote := req.isInternal && isAgentOrAdmin req.userRole
    if req.userRole = Role.USER ∧ ticket.requesterId ≠ req.userId then
      none
    else
      some (commentInsertStep st req isInternalNote now).1

/-!
Zendesk ticket import (`router.post('/import')`): status mapping and the
solved-date determination for the created ticket row.
-/

/-- A Zendesk export ticket record (the fields the import's status and
solved-date logic reads). -/
structure ZendeskTicket where
  zid : Nat
  zstatus : String
  solved_at : Option Nat
  updated_at : Option Nat
deriving DecidableEq, Repr

/-- `zendeskStatus.toLowerCase()`: ASCII lowercasing, character by
character. -/
def lowerString (s : String) : String := String.mk (s.data.map Char.toLower)

/-- `mapStatus`: lowercases the Zendesk status and maps it onto the
`TicketStatus` enum; both `'solved'` and `'closed'` map to SOLVED, anything
unrecognized to NEW. -/
def mapStatus (zendeskStatus : String) : TicketStatus :=
  let l := lowerString zendeskStatus
  if l == "new" then TicketStatus.NEW
  else if l == "open" then TicketStatus.OPEN
  else if l == "pending" then TicketStatus.PENDING
  else if l == "hold" then TicketStatus.ON_HOLD
  else if l == "solved" then TicketStatus.SOLVED
  else if l == "closed" then TicketStatus.SOLVED
  else TicketStatus.NEW

/-- The import's solved-date determination: an explicit `solved_at` from the
export is taken as-is, whatever the status; otherwise, when the raw status
string is exactly `'solved'` or `'closed'` (case-sensitive, unlike
`mapStatus`), `updated_at` (or the import time) is used; otherwise null. -/
def importSolvedAt (zt : ZendeskTicket) (now : Nat) : Option Nat :=
  match zt.solved_at with
  | some d => some d
  | none =>
    if zt.zstatus == "solved" || zt.zstatus == "closed" then
      some (zt.updated_at.getD now)
    else none

/-- The ticket row created by `prisma.ticket.create` in the Zendesk import
(status, solvedAt and timestamp fields; `firstResponseAt` is not set). -/
def importTicket (zt : ZendeskTicket) (now : Nat) (id requesterId : String) :
    Ticket :=
  { id := id
    requesterId := requesterId
    status := mapStatus zt.zstatus
    firstResponseAt := none
    solvedAt := importSolvedAt zt now
    updatedAt := zt.updated_at.getD now }

/-!
Settings update (`router.patch('/:id')` of `routes/settings.ts`).
-/

/-- The threshold fields of the Settings singleton (enable flags are not
involved in the update validation and are omitted). -/
structure Settings where
  pendingTicketReminderHours : Int
  autoCloseHours : Int
  autoSolveHours : Int
  autoDeleteAttachmentsDays : Int
deriving DecidableEq, Repr

/-- The PATCH body: each threshold optionally present. -/
structure SettingsUpdate where
  pendingTicketReminderHours : Option Int
  autoCloseHours : Option Int
  autoSolveHours : Option Int
  autoDeleteAttachmentsDays : Option Int
deriving DecidableEq, Repr

/-- `updateData.x !== undefined && updateData.x < 1`. -/
def belowOne : Option Int → Bool
  | some v => v < 1
  | none => false

/-- `prisma.settings.update`: fields present in the body replace the stored
values. -/
def applySettingsUpdate (s : Settings) (u : SettingsUpdate) : Settings :=
  { pendingTicketReminderHours :=
      u.pendingTicketReminderHours.getD s.pendingTicketReminderHours
    autoCloseHours := u.autoCloseHours.getD s.autoCloseHours
    autoSolveHours := u.autoSolveHours.getD s.autoSolveHours
    autoDeleteAttachmentsDays :=
      u.autoDeleteAttachmentsDays.getD s.autoDeleteAttachmentsDays }

/-- The settings PATCH handler: validates, in order, the reminder, auto-close
and auto-solve hour thresholds (400 when a provided value is below 1), then
applies the update. `autoDeleteAttachmentsDays` appears in no check.
An error leaves the stored settings untouched: the update runs only after
all checks pass. -/
def patchSettings (s : Settings) (u : SettingsUpdate) :
    Except ApiError Settings :=
  if belowOne u.pendingTicketReminderHours then Except.error ApiError.ValidationError
  else if belowOne u.autoCloseHours then Except.error ApiError.ValidationError
  else if belowOne u.autoSolveHours then Except.error ApiError.ValidationError
  else Except.ok (applySettingsUpdate s u)

/-!
Per-ticket agent contribution report (`router.get('/ticket-contributions')`):
aggregation of time entries and agent/admin comments per agent, followed by
the weighted rounded percentage.
-/

/-- A `ticketTimeEntry` row: agent and nullable duration. -/
structure TimeEntry where
  agentId : String
  duration : Option Nat
deriving DecidableEq, Repr

/-- A comment row joined with its author's role, as the report reads it. -/
structure AuthoredComment where
  authorId : String
  authorRole : Role
  isInternal : Bool
  isSystem : Bool
deriving DecidableEq, Repr

/-- One agent's aggregate in the `agentContributions` record. -/
structure Contrib where
  timeSpent : Nat
  replyCount : Nat
deriving DecidableEq, Repr

/-- The `agentContributions` record: an insertion-ordered map from agent id
to aggregate, as a JS object over string keys behaves. -/
abbrev ContribMap := List (String × Contrib)

/-- Reading `agentContributions[k]`, with the zero aggregate for a key the
handler has not touched yet. -/
def lookupContrib (m : ContribMap) (k : String) : Contrib :=
  match m.find? (fun p => p.1 == k) with
  | some p => p.2
  | none => { timeSpent := 0, replyCount := 0 }

/-- `if (!agentContributions[k]) agentContributions[k] = {timeSpent:0,replyCount:0};
agentContributions[k] = f(agentContributions[k])`: update in place when the
key exists, otherwise append the key with the zero aggregate updated. -/
def updateContrib (m : ContribMap) (k : String) (f : Contrib → Contrib) :
    ContribMap :=
  if m.any (fun p => p.1 == k) then
    m.map (fun p => if p.1 == k then (p.1, f p.2) else p)
  else
    m ++ [(k, f { timeSpent := 0, replyCount := 0 })]

/-- First loop: `ticket.timeEntries.forEach`, adding `entry.duration || 0` to
the entry's agent. -/
def addTimeEntries (m : ContribMap) (entries : List TimeEntry) : ContribMap :=
  entries.foldl
    (fun m e => updateContrib m e.agentId
      (fun c => { c with timeSpent := c.timeSpent + e.duration.getD 0 }))
    m

/-- Second loop: `ticket.comments.forEach`, counting one reply for every
comment whose author's role is AGENT or ADMIN — with no condition on
`isInternal` or `isSystem`. -/
def addReplies (m : ContribMap) (comments : List AuthoredComment) : ContribMap :=
  comments.foldl
    (fun m c =>
      if isAgentOrAdmin c.authorRole = true then
        updateContrib m c.authorId
          (fun con => { con with replyCount := con.replyCount + 1 })
      else m)
    m

/-- The full `agentContributions` aggregation for one ticket. -/
def agentContributions (entries : List TimeEntry)
    (comments : List AuthoredComment) : ContribMap :=
  addReplies (addTimeEntries [] entries) comments

/-- `Object.values(agentContributions).reduce((sum, c) => sum + c.timeSpent, 0)`. -/
def contribTotalTime (m : ContribMap) : Nat :=
  (m.map (fun p => p.2.timeSpent)).sum

/-- `Object.values(agentContributions).reduce((sum, c) => sum + c.replyCount, 0)`. -/
def contribTotalReplies (m : ContribMap) : Nat :=
  (m.map (fun p => p.2.replyCount)).sum

/-- `Math.round` on the non-negative values produced here: round half up. -/
def jsRound (q : ℚ) : ℤ := ⌊q + 1 / 2⌋

/-- `Math.round((timePercentage * 0.6 + replyPercentage * 0.4) * 100)` with
`timePercentage = totalTime > 0 ? timeSpent / totalTime : 0` and likewise for
replies. -/
def contributionPercentage (c : Contrib) (totalTime totalReplies : Nat) : ℤ :=
  let timePercentage : ℚ :=
    if 0 < totalTime then (c.timeSpent : ℚ) / (totalTime : ℚ) else 0
  let replyPercentage : ℚ :=
    if 0 < totalReplies then (c.replyCount : ℚ) / (totalReplies : ℚ) else 0
  jsRound ((timePercentage * 0.6 + replyPercentage * 0.4) * 100)

/-- The per-ticket slice of the report's response. -/
structure TicketContributions where
  contribs : List (String × Contrib × ℤ)
  totalTime : Nat
  totalReplies : Nat
deriving DecidableEq, Repr

/-- One ticket's entry of the contribution report: aggregate, total, and
attach each agent's `contributionPercentage`. -/
def ticketContributions (entries : List TimeEntry)
    (comments : List AuthoredComment) : TicketContributions :=
  let m := agentContributions entries comments
  let tT := contribTotalTime m
  let tR := contribTotalReplies m
  { contribs := m.map (fun p => (p.1, p.2, contributionPercentage p.2 tT tR))
    totalTime := tT
    totalReplies := tR }

/-!
Spec-side definitions, written from the specification's words, for the
refinement claims about the contribution report.
-/

/-- Modelled from the spec: `timeSpent` of one agent on one ticket — the sum
of that agent's time-entry durations. -/
def specTimeSpent (entries : List TimeEntry) (k : String) : Nat :=
  ((entries.filter (fun e => e.agentId == k)).map (fun e => e.duration.getD 0)).sum

/-- Modelled from the spec: `replyCount` of one agent on one ticket — the
count of comments authored by that agent with role agent/admin, internal
notes included, unfiltered. -/
def specReplyCount (comments : List AuthoredComment) (k : String) : Nat :=
  (comments.filter (fun c => c.authorId == k && isAgentOrAdmin c.authorRole)).length

/-- Modelled from the spec:
`contributionPercent = round((timeShare*0.6 + replyShare*0.4) * 100)` with
`timeShare = timeSpent/totalTime` (0 if `totalTime == 0`) and
`replyShare = replyCount/totalReplies` (0 if `totalReplies == 0`). -/
def specContributionPercent (t r totalTime totalReplies : Nat) : ℤ :=
  let timeShare : ℚ := if totalTime = 0 then 0 else (t : ℚ) / (totalTime : ℚ)
  let replyShare : ℚ := if totalReplies = 0 then 0 else (r : ℚ) / (totalReplies : ℚ)
  jsRound ((timeShare * 0.6 + replyShare * 0.4) * 100)

/-!
Concrete fixtures used by witnesses and counterexamples.
-/

/-- Concrete PENDING ticket, requested by `u1`. -/
def exTicketPending : Ticket :=
  { id := "t1", requesterId := "u1", status := TicketStatus.PENDING
    firstResponseAt := none, solvedAt := none, updatedAt := 0 }

/-- Concrete OPEN ticket, requested by `u1`, with no first response yet. -/
def exTicketOpen : Ticket :=
  { id := "t2", requesterId := "u1", status := TicketStatus.OPEN
    firstResponseAt := none, solvedAt := none, updatedAt := 0 }

/-- A database with both concrete tickets and one active agent session. -/
def exState : DBState :=
  { tickets := [exTicketPending, exTicketOpen]
    comments := []
    activities := []
    sessions := [{ id := "s1", agentId := "a1", loginAt := 0, logoutAt := none, replyCount := 0 }] }

/-- A concrete stored settings row. -/
def exSettings : Settings :=
  { pendingTicketReminderHours := 24, autoCloseHours := 72
    autoSolveHours := 48, autoDeleteAttachmentsDays := 30 }

/-- The spec's worked example: agent A logged 600s and 3 replies, agent B
400s and 1 reply. -/
def exEntries : List TimeEntry :=
  [{ agentId := "A", duration := some 600 }, { agentId := "B", duration := some 400 }]

/-- The comments of the worked example: three agent/admin comments by A
(one internal) and one by B. -/
def exComments : List AuthoredComment :=
  [{ authorId := "A", authorRole := Role.AGENT, isInternal := false, isSystem := false },
   { authorId := "A", authorRole := Role.AGENT, isInternal := true, isSystem := false },
   { authorId := "A", authorRole := Role.ADMIN, isInternal := false, isSystem := false },
   { authorId := "B", authorRole := Role.AGENT, isInternal := false, isSystem := false }]

/-- The exact, pre-rounding contribution value of one agent. -/
def exactContribution (c : Contrib) (tT tR : Nat) : ℚ :=
  (((c.timeSpent : ℚ) / (tT : ℚ)) * 0.6 + ((c.replyCount : ℚ) / (tR : ℚ)) * 0.4) * 100

/-!
Helper lemmas: how the comment handler's pipeline acts on the persisted
rows, and the behaviour of the contribution aggregation map.
-/

theorem isAgentOrAdmin_ne_user {r : Role} (h : isAgentOrAdmin r = true) :
    r ≠ Role.USER := by
  cases r <;> simp_all [isAgentOrAdmin]

theorem tickets_sessionIncrementStep (st : DBState) (req : CommentRequest) :
    (sessionIncrementStep st req).tickets = st.tickets := by
  unfold sessionIncrementStep
  split
  · split <;> rfl
  · rfl

theorem comments_sessionIncrementStep (st : DBState) (req : CommentRequest) :
    (sessionIncrementStep st req).comments = st.comments := by
  unfold sessionIncrementStep
  split
  · split <;> rfl
  · rfl

theorem find?_replace (l : List Ticket) (tid : String) (t t' : Ticket)
    (h : l.find? (fun u => u.id == tid) = some t) (hid : (t'.id == tid) = true) :
    (l.map (fun u => if u.id == tid then t' else u)).find? (fun u => u.id == tid)
      = some t' := by
  induction l with
  | nil => simp at h
  | cons a l ih =>
    by_cases ha : (a.id == tid) = true
    · simp only [List.map_cons, if_pos ha]
      exact List.find?_cons_of_pos _ hid
    · rw [List.find?_cons_of_neg _ (by simp [ha])] at h
      simp only [List.map_cons, if_neg ha]
      rw [List.find?_cons_of_neg _ (by simp [ha])]
      exact ih h

theorem createComment_ok_spec (st : DBState) (req : CommentRequest) (now : Nat)
    (t : Ticket)
    (hfind : findTicket st req.ticketId = some t)
    (hallow : req.userRole = Role.USER → t.requesterId = req.userId) :
    ∃ st' c,
      createComment st req now = Except.ok (st', c) ∧
      c.isInternal = (req.isInternal && isAgentOrAdmin req.userRole) ∧
      c.ticketId = req.ticketId ∧ c.authorId = req.userId ∧
      st'.comments = st.comments ++ [c] ∧
      findTicket st' req.ticketId =
        some (applyCommentTicketUpdate t req
          (req.isInternal && isAgentOrAdmin req.userRole) now) := by
  have hcond : ¬ (req.userRole = Role.USER ∧ t.requesterId ≠ req.userId) := by
    rintro ⟨h1, h2⟩
    exact h2 (hallow h1)
  refine
    ⟨sessionIncrementStep
        (ticketUpdateStep
          { st with comments := st.comments ++
              [⟨req.ticketId, req.userId, req.isInternal && isAgentOrAdmin req.userRole, now⟩] }
          t req (req.isInternal && isAgentOrAdmin req.userRole) now) req,
      ⟨req.ticketId, req.userId, req.isInternal && isAgentOrAdmin req.userRole, now⟩,
      ?_, rfl, rfl, rfl, ?_, ?_⟩
  · unfold createComment
    rw [hfind]
    dsimp only
    rw [if_neg hcond]
    rfl
  · rw [comments_sessionIncrementStep]
    rfl
  · show findTicket (sessionIncrementStep _ _) _ = _
    unfold findTicket
    rw [tickets_sessionIncrementStep]
    show (((commentInsertStep st req _ now).1.tickets.map _).find? _) = _
    have hbase : (commentInsertStep st req (req.isInternal && isAgentOrAdmin req.userRole) now).1.tickets = st.tickets := rfl
    rw [hbase]
    have hfind2 : st.tickets.find? (fun u => u.id == req.ticketId) = some t := hfind
    have hidt := List.find?_some hfind2
    exact find?_replace st.tickets req.ticketId t _ hfind2 hidt

/-- The status of the ticket row written by the comment handler. -/
theorem status_applyCommentTicketUpdate (t : Ticket) (req : CommentRequest)
    (iN : Bool) (now : Nat) :
    (applyCommentTicketUpdate t req iN now).status =
      commentStatusUpdate req.userRole iN t.status := rfl

/-- The `firstResponseAt` of the ticket row written by the comment handler. -/
theorem firstResponseAt_applyCommentTicketUpdate (t : Ticket)
    (req : CommentRequest) (iN : Bool) (now : Nat) :
    (applyCommentTicketUpdate t req iN now).firstResponseAt =
      commentFirstResponseUpdate req.userRole t.firstResponseAt now := rfl

theorem fst_updateFn (k : String) (f : Contrib → Contrib) (q : String × Contrib) :
    (if (q.1 == k) = true then (q.1, f q.2) else q).1 = q.1 := by
  split <;> rfl

theorem any_eq_isSome_find? (m : ContribMap) (k : String) :
    m.any (fun p => p.1 == k) = (m.find? (fun p => p.1 == k)).isSome := by
  induction m with
  | nil => rfl
  | cons a l ih =>
    by_cases h : (a.1 == k) = true
    · rw [List.find?_cons_of_pos (p := fun p : String × Contrib => p.1 == k) _ h]
      simp [h]
    · rw [List.find?_cons_of_neg (p := fun p : String × Contrib => p.1 == k) _ h]
      simp [List.any_cons, h, ih]

theorem lookupContrib_updateContrib_self (m : ContribMap) (k : String)
    (f : Contrib → Contrib) :
    lookupContrib (updateContrib m k f) k = f (lookupContrib m k) := by
  unfold updateContrib lookupContrib
  rw [any_eq_isSome_find?]
  rcases hf : m.find? (fun p => p.1 == k) with _ | p
  · rw [hf, Option.isSome_none, if_neg (by simp)]
    rw [List.find?_append, hf, Option.none_or]
    rw [List.find?_cons_of_pos (p := fun p : String × Contrib => p.1 == k) _ (by simp)]
  · rw [hf, Option.isSome_some, if_pos rfl]
    rw [List.find?_map]
    have hcomp : ((fun p : String × Contrib => p.1 == k) ∘
        (fun q => if (q.1 == k) = true then (q.1, f q.2) else q)) =
        (fun p : String × Contrib => p.1 == k) := by
      funext q
      simp only [Function.comp_apply, fst_updateFn]
    rw [hcomp, hf]
    have hpk : (p.1 == k) = true :=
      List.find?_some (p := fun q : String × Contrib => q.1 == k) hf
    show (if (p.1 == k) = true then (p.1, f p.2) else p).2 = f p.2
    rw [if_pos hpk]

theorem lookupContrib_updateContrib_ne (m : ContribMap) (k k' : String)
    (f : Contrib → Contrib) (hne : k' ≠ k) :
    lookupContrib (updateContrib m k f) k' = lookupContrib m k' := by
  unfold updateContrib lookupContrib
  by_cases h : m.any (fun p => p.1 == k) = true
  · rw [if_pos h, List.find?_map]
    have hcomp : ((fun p : String × Contrib => p.1 == k') ∘
        (fun q => if (q.1 == k) = true then (q.1, f q.2) else q)) =
        (fun p : String × Contrib => p.1 == k') := by
      funext q
      simp only [Function.comp_apply, fst_updateFn]
    rw [hcomp]
    rcases hf : m.find? (fun p => p.1 == k') with _ | p
    · rw [hf]
      rfl
    · rw [hf]
      have hpk : (p.1 == k') = true :=
        List.find?_some (p := fun q : String × Contrib => q.1 == k') hf
      rw [beq_iff_eq] at hpk
      show (if (p.1 == k) = true then (p.1, f p.2) else p).2 = p.2
      rw [if_neg (by simp [hpk, hne])]
  · rw [if_neg h, List.find?_append]
    rw [List.find?_cons_of_neg (p := fun p : String × Contrib => p.1 == k') _
      (by simp [Ne.symm hne])]
    have hnil : (List.find? (fun p : String × Contrib => p.1 == k') []) = none := rfl
    rw [hnil, Option.or_none]

theorem specTimeSpent_cons (e : TimeEntry) (es : List TimeEntry) (k : String) :
    specTimeSpent (e :: es) k =
      (if e.agentId == k then e.duration.getD 0 else 0) + specTimeSpent es k := by
  unfold specTimeSpent
  rw [List.filter_cons]
  split <;> simp [*]

theorem specReplyCount_cons (c : AuthoredComment) (cs : List AuthoredComment)
    (k : String) :
    specReplyCount (c :: cs) k =
      (if c.authorId == k && isAgentOrAdmin c.authorRole then 1 else 0)
        + specReplyCount cs k := by
  unfold specReplyCount
  rw [List.filter_cons]
  split <;> simp [*, Nat.add_comm]

theorem timeSpent_addTimeEntries (es : List TimeEntry) (m : ContribMap)
    (k : String) :
    (lookupContrib (addTimeEntries m es) k).timeSpent =
      (lookupContrib m k).timeSpent + specTimeSpent es k := by
  induction es generalizing m with
  | nil => simp [addTimeEntries, specTimeSpent]
  | cons e es ih =>
    rw [show addTimeEntries m (e :: es)
        = addTimeEntries (updateContrib m e.agentId
            (fun c => { c with timeSpent := c.timeSpent + e.duration.getD 0 })) es
      from rfl]
    rw [ih, specTimeSpent_cons]
    by_cases hk : k = e.agentId
    · subst hk
      rw [lookupContrib_updateContrib_self]
      simp [Nat.add_assoc]
    · rw [lookupContrib_updateContrib_ne _ _ _ _ hk]
      have : (e.agentId == k) = false := by
        simp [beq_iff_eq]
        exact fun hc => hk hc.symm
      simp [this]

theorem replyCount_addTimeEntries (es : List TimeEntry) (m : ContribMap)
    (k : String) :
    (lookupContrib (addTimeEntries m es) k).replyCount =
      (lookupContrib m k).replyCount := by
  induction es generalizing m with
  | nil => simp [addTimeEntries]
  | cons e es ih =>
    rw [show addTimeEntries m (e :: es)
        = addTimeEntries (updateContrib m e.agentId
            (fun c => { c with timeSpent := c.timeSpent + e.duration.getD 0 })) es
      from rfl]
    rw [ih]
    by_cases hk : k = e.agentId
    · subst hk
      rw [lookupContrib_updateContrib_self]
    · rw [lookupContrib_updateContrib_ne _ _ _ _ hk]

theorem replyCount_addReplies (cs : List AuthoredComment) (m : ContribMap)
    (k : String) :
    (lookupContrib (addReplies m cs) k).replyCount =
      (lookupContrib m k).replyCount + specReplyCount cs k := by
  induction cs generalizing m with
  | nil => simp [addReplies, specReplyCount]
  | cons c cs ih =>
    rw [show addReplies m (c :: cs)
        = addReplies (if isAgentOrAdmin c.authorRole = true
            then updateContrib m c.authorId
              (fun con => { con with replyCount := con.replyCount + 1 })
            else m) cs
      from rfl]
    rw [ih, specReplyCount_cons]
    by_cases hrole : isAgentOrAdmin c.authorRole = true
    · rw [if_pos hrole]
      by_cases hk : k = c.authorId
      · subst hk
        rw [lookupContrib_updateContrib_self]
        simp [hrole, Nat.add_assoc]
      · rw [lookupContrib_updateContrib_ne _ _ _ _ hk]
        have : (c.authorId == k) = false := by
          simp [beq_iff_eq]
          exact fun hc => hk hc.symm
        simp [this]
    · rw [if_neg hrole]
      have : isAgentOrAdmin c.authorRole = false := by
        simpa using hrole
      simp [this]

theorem timeSpent_addReplies (cs : List AuthoredComment) (m : ContribMap)
    (k : String) :
    (lookupContrib (addReplies m cs) k).timeSpent =
      (lookupContrib m k).timeSpent := by
  induction cs generalizing m with
  | nil => simp [addReplies]
  | cons c cs ih =>
    rw [show addReplies m (c :: cs)
        = addReplies (if isAgentOrAdmin c.authorRole = true
            then updateContrib m c.authorId
              (fun con => { con with replyCount := con.replyCount + 1 })
            else m) cs
      from rfl]
    rw [ih]
    by_cases hrole : isAgentOrAdmin c.authorRole = true
    · rw [if_pos hrole]
      by_cases hk : k = c.authorId
      · subst hk
        rw [lookupContrib_updateContrib_self]
      · rw [lookupContrib_updateContrib_ne _ _ _ _ hk]
    · rw [if_neg hrole]

theorem lookupContrib_agentContributions (entries : List TimeEntry)
    (comments : List AuthoredComment) (k : String) :
    lookupContrib (agentContributions entries comments) k =
      { timeSpent := specTimeSpent entries k
        replyCount := specReplyCount comments k } := by
  unfold agentContributions
  have h1 := timeSpent_addReplies comments (addTimeEntries [] entries) k
  have h2 := replyCount_addReplies comments (addTimeEntries [] entries) k
  have h3 := timeSpent_addTimeEntries entries [] k
  have h4 := replyCount_addTimeEntries entries [] k
  have hnil : lookupContrib [] k = { timeSpent := 0, replyCount := 0 } := rfl
  rcases hL : lookupContrib (addReplies (addTimeEntries [] entries) comments) k
    with ⟨t, r⟩
  rw [hL] at h1 h2
  rw [hnil] at h3 h4
  simp only at h1 h2 h3 h4
  rw [h3] at h1
  rw [h4] at h2
  simp only [Nat.zero_add] at h1 h2
  rw [h1, h2]

theorem keys_updateContrib (m : ContribMap) (k : String) (f : Contrib → Contrib) :
    (updateContrib m k f).map Prod.fst =
      (if m.any (fun p => p.1 == k) then m.map Prod.fst
        else m.map Prod.fst ++ [k]) := by
  unfold updateContrib
  split
  · rw [List.map_map]
    congr 1
    funext q
    simp only [Function.comp_apply, fst_updateFn]
  · simp

theorem nodup_keys_updateContrib (m : ContribMap) (k : String)
    (f : Contrib → Contrib) (h : (m.map Prod.fst).Nodup) :
    ((updateContrib m k f).map Prod.fst).Nodup := by
  rw [keys_updateContrib]
  split
  · exact h
  · rename_i hany
    have hk : k ∉ m.map Prod.fst := by
      intro hkm
      rw [List.mem_map] at hkm
      obtain ⟨p, hp, hpk⟩ := hkm
      rw [List.any_eq_true] at hany
      exact hany ⟨p, hp, by simp [hpk]⟩
    simp [List.nodup_append, h, hk]

theorem nodup_keys_addTimeEntries (es : List TimeEntry) (m : ContribMap)
    (h : (m.map Prod.fst).Nodup) :
    ((addTimeEntries m es).map Prod.fst).Nodup := by
  induction es generalizing m with
  | nil => exact h
  | cons e es ih =>
    exact ih _ (nodup_keys_updateContrib _ _ _ h)

theorem nodup_keys_addReplies (cs : List AuthoredComment) (m : ContribMap)
    (h : (m.map Prod.fst).Nodup) :
    ((addReplies m cs).map Prod.fst).Nodup := by
  induction cs generalizing m with
  | nil => exact h
  | cons c cs ih =>
    refine ih _ ?_
    show ((if isAgentOrAdmin c.authorRole = true then _ else m).map Prod.fst).Nodup
    split
    · exact nodup_keys_updateContrib _ _ _ h
    · exact h

theorem nodup_keys_agentContributions (entries : List TimeEntry)
    (comments : List AuthoredComment) :
    ((agentContributions entries comments).map Prod.fst).Nodup :=
  nodup_keys_addReplies _ _ (nodup_keys_addTimeEntries _ _ (by simp))

theorem lookupContrib_of_mem (m : ContribMap) (hm : (m.map Prod.fst).Nodup)
    (p : String × Contrib) (hp : p ∈ m) : lookupContrib m p.1 = p.2 := by
  induction m with
  | nil => cases hp
  | cons a l ih =>
    rw [List.mem_cons] at hp
    rcases hp with rfl | hp
    · unfold lookupContrib
      rw [List.find?_cons_of_pos (p := fun q : String × Contrib => q.1 == p.1) _ (by simp)]
    · have hnd := hm
      rw [List.map_cons, List.nodup_cons] at hnd
      have ha : (a.1 == p.1) = false := by
        have hin : p.1 ∈ l.map Prod.fst := List.mem_map_of_mem _ hp
        simp only [beq_eq_false_iff_ne, ne_eq]
        intro hc
        exact hnd.1 (hc ▸ hin)
      unfold lookupContrib
      rw [List.find?_cons_of_neg (p := fun q : String × Contrib => q.1 == p.1) _
        (by simp [ha])]
      exact ih hnd.2 hp

theorem contributionPercentage_eq_spec (c : Contrib) (tT tR : Nat) :
    contributionPercentage c tT tR =
      specContributionPercent c.timeSpent c.replyCount tT tR := by
  unfold contributionPercentage specContributionPercent
  by_cases h1 : tT = 0 <;> by_cases h2 : tR = 0 <;>
    simp [h1, h2, Nat.pos_iff_ne_zero]

theorem contributionPercentage_eq_jsRound_exact (c : Contrib) (tT tR : Nat)
    (hT : 0 < tT) (hR : 0 < tR) :
    contributionPercentage c tT tR = jsRound (exactContribution c tT tR) := by
  unfold contributionPercentage exactContribution
  simp [hT, hR]

theorem jsRound_sub_le (q : ℚ) : |(jsRound q : ℚ) - q| ≤ 1 / 2 := by
  rw [abs_sub_le_iff]
  constructor
  · have h := Int.floor_le (q + 1 / 2)
    unfold jsRound
    push_cast at h ⊢
    linarith
  · have h := Int.lt_floor_add_one (q + 1 / 2)
    unfold jsRound
    push_cast at h ⊢
    linarith

theorem sum_jsRound_sub_le (l : List ℚ) :
    |(l.map (fun q => (jsRound q : ℚ))).sum - l.sum| ≤ (l.length : ℚ) / 2 := by
  induction l with
  | nil => simp
  | cons q l ih =>
    simp only [List.map_cons, List.sum_cons, List.length_cons, Nat.cast_add,
      Nat.cast_one]
    calc |((jsRound q : ℚ) + (l.map (fun q => (jsRound q : ℚ))).sum) - (q + l.sum)|
        = |((jsRound q : ℚ) - q) + ((l.map (fun q => (jsRound q : ℚ))).sum - l.sum)| := by
          congr 1
          ring
      _ ≤ |(jsRound q : ℚ) - q| + |(l.map (fun q => (jsRound q : ℚ))).sum - l.sum| :=
          abs_add _ _
      _ ≤ 1 / 2 + (l.length : ℚ) / 2 := add_le_add (jsRound_sub_le q) ih
      _ = ((l.length : ℚ) + 1) / 2 := by ring

theorem sum_exactContribution_eq (m : ContribMap) (tT tR : Nat)
    (hT : contribTotalTime m = tT) (hR : contribTotalReplies m = tR)
    (hT0 : 0 < tT) (hR0 : 0 < tR) :
    (m.map (fun p => exactContribution p.2 tT tR)).sum = 100 := by
  have key : ∀ l : ContribMap,
      (l.map (fun p => exactContribution p.2 tT tR)).sum =
        ((l.map (fun p => (p.2.timeSpent : ℚ))).sum / (tT : ℚ)) * 60 +
        ((l.map (fun p => (p.2.replyCount : ℚ))).sum / (tR : ℚ)) * 40 := by
    intro l
    induction l with
    | nil => simp
    | cons p l ih =>
      simp only [List.map_cons, List.sum_cons, ih]
      unfold exactContribution
      have h06 : (0.6 : ℚ) = 3 / 5 := by norm_num
      have h04 : (0.4 : ℚ) = 2 / 5 := by norm_num
      rw [h06, h04]
      ring
  unfold contribTotalTime at hT
  unfold contribTotalReplies at hR
  have hTq : (m.map (fun p => (p.2.timeSpent : ℚ))).sum = (tT : ℚ) := by
    rw [show (m.map (fun p => (p.2.timeSpent : ℚ)))
        = (m.map (fun p => p.2.timeSpent)).map (fun n : ℕ => (n : ℚ)) from by
      rw [List.map_map]; rfl]
    rw [← Nat.cast_list_sum]
    exact_mod_cast hT
  have hRq : (m.map (fun p => (p.2.replyCount : ℚ))).sum = (tR : ℚ) := by
    rw [show (m.map (fun p => (p.2.replyCount : ℚ)))
        = (m.map (fun p => p.2.replyCount)).map (fun n : ℕ => (n : ℚ)) from by
      rw [List.map_map]; rfl]
    rw [← Nat.cast_list_sum]
    exact_mod_cast hR
  rw [key m, hTq, hRq]
  have hT' : (tT : ℚ) ≠ 0 := by
    exact_mod_cast Nat.pos_iff_ne_zero.mp hT0
  have hR' : (tR : ℚ) ≠ 0 := by
    exact_mod_cast Nat.pos_iff_ne_zero.mp hR0
  rw [div_self hT', div_self hR']
  norm_num

theorem exContribs_eval :
    (ticketContributions exEntries exComments).contribs
      = [("A", { timeSpent := 600, replyCount := 3 }, 66),
         ("B", { timeSpent := 400, replyCount := 1 }, 34)] := by
  have hm : agentContributions exEntries exComments
      = [("A", { timeSpent := 600, replyCount := 3 }),
         ("B", { timeSpent := 400, replyCount := 1 })] := by decide
  simp [ticketContributions, hm, contribTotalTime, contribTotalReplies,
    contributionPercentage, jsRound]
  norm_num

/-!
Claim theorems, witnesses and counterexamples.
-/

/-- C1: for an existing ticket, a comment created via `createComment` whose
author has role AGENT or ADMIN and whose stored `isInternal` flag is false
(for agent/admin authors the stored flag equals the submitted one) leaves the
ticket with status PENDING, regardless of the prior status. -/
theorem createComment_agent_public_sets_pending
    (st : DBState) (req : CommentRequest) (now : Nat) (t : Ticket)
    (hfind : findTicket st req.ticketId = some t)
    (hrole : isAgentOrAdmin req.userRole = true)
    (hpub : req.isInternal = false) :
    ∃ st' c t', createComment st req now = Except.ok (st', c) ∧
      c.isInternal = false ∧
      findTicket st' req.ticketId = some t' ∧
      t'.status = TicketStatus.PENDING := by
  obtain ⟨st', c, hok, hci, -, -, -, hft⟩ :=
    createComment_ok_spec st req now t hfind
      (fun hu => absurd hu (isAgentOrAdmin_ne_user hrole))
  refine ⟨st', c, _, hok, by rw [hci, hpub, Bool.false_and], hft, ?_⟩
  rw [status_applyCommentTicketUpdate]
  simp [commentStatusUpdate, hrole, hpub]

/-- C1 witness: an AGENT public reply on the OPEN ticket `t2`. -/
theorem createComment_agent_public_sets_pending_witness :
    findTicket exState "t2" = some exTicketOpen ∧
    isAgentOrAdmin Role.AGENT = true ∧
    (∃ st' c t',
      createComment exState
          { ticketId := "t2", userId := "a1", userRole := Role.AGENT, isInternal := false } 5
        = Except.ok (st', c) ∧
      c.isInternal = false ∧
      findTicket st' "t2" = some t' ∧
      t'.status = TicketStatus.PENDING) :=
  ⟨by decide, by decide,
    createComment_agent_public_sets_pending exState
      { ticketId := "t2", userId := "a1", userRole := Role.AGENT, isInternal := false }
      5 exTicketOpen (by decide) (by decide) rfl⟩

/-- C5: a comment created via `createComment` by the ticket's requester
(role USER) moves a PENDING ticket to OPEN and leaves any other status
unchanged. -/
theorem createComment_requester_reply_status
    (st : DBState) (req : CommentRequest) (now : Nat) (t : Ticket)
    (hfind : findTicket st req.ticketId = some t)
    (hrole : req.userRole = Role.USER)
    (hreq : t.requesterId = req.userId) :
    ∃ st' c t', createComment st req now = Except.ok (st', c) ∧
      findTicket st' req.ticketId = some t' ∧
      t'.status =
        (if t.status = TicketStatus.PENDING then TicketStatus.OPEN else t.status) := by
  obtain ⟨st', c, hok, -, -, -, -, hft⟩ :=
    createComment_ok_spec st req now t hfind (fun _ => hreq)
  refine ⟨st', c, _, hok, hft, ?_⟩
  rw [status_applyCommentTicketUpdate]
  simp [commentStatusUpdate, hrole, isAgentOrAdmin]

/-- C5 witness: the requester `u1` replying to the PENDING ticket `t1`. -/
theorem createComment_requester_reply_status_witness :
    findTicket exState "t1" = some exTicketPending ∧
    exTicketPending.requesterId = "u1" ∧
    (∃ st' c t',
      createComment exState
          { ticketId := "t1", userId := "u1", userRole := Role.USER, isInternal := false } 5
        = Except.ok (st', c) ∧
      findTicket st' "t1" = some t' ∧
      t'.status =
        (if exTicketPending.status = TicketStatus.PENDING then TicketStatus.OPEN
          else exTicketPending.status)) :=
  ⟨by decide, by decide,
    createComment_requester_reply_status exState
      { ticketId := "t1", userId := "u1", userRole := Role.USER, isInternal := false }
      5 exTicketPending (by decide) rfl (by decide)⟩

/-- C6 counterexample: a USER submitting `isInternal=true` on their own
PENDING ticket: the flag is coerced to false and the status changes from
PENDING to OPEN, so a comment submitted with `isInternal=true` does change
the status. -/
theorem submitted_internal_comment_changes_status_cex :
    exTicketPending.status = TicketStatus.PENDING ∧
    (createComment exState
        { ticketId := "t1", userId := "u1", userRole := Role.USER, isInternal := true } 5).toOption.map
        (fun p => ((findTicket p.1 "t1").map Ticket.status, p.2.isInternal))
      = some (some TicketStatus.OPEN, false) := by decide

/-- C6 amended: a comment whose *stored* `isInternal` flag is true — i.e.
submitted with `isInternal=true` by an AGENT or ADMIN author — changes no
status; a USER-submitted `isInternal=true` comment is stored as public and
follows the requester-reply rule instead. -/
theorem createComment_stored_internal_preserves_status
    (st : DBState) (req : CommentRequest) (now : Nat) (t : Ticket)
    (hfind : findTicket st req.ticketId = some t)
    (hrole : isAgentOrAdmin req.userRole = true)
    (hint : req.isInternal = true) :
    ∃ st' c t', createComment st req now = Except.ok (st', c) ∧
      c.isInternal = true ∧
      findTicket st' req.ticketId = some t' ∧
      t'.status = t.status := by
  obtain ⟨st', c, hok, hci, -, -, -, hft⟩ :=
    createComment_ok_spec st req now t hfind
      (fun hu => absurd hu (isAgentOrAdmin_ne_user hrole))
  refine ⟨st', c, _, hok, by rw [hci, hint, hrole]; rfl, hft, ?_⟩
  rw [status_applyCommentTicketUpdate]
  simp [commentStatusUpdate, hrole, hint]

/-- C6 amended witness: an ADMIN internal note on the OPEN ticket `t2`
leaves the status OPEN. -/
theorem createComment_stored_internal_preserves_status_witness :
    findTicket exState "t2" = some exTicketOpen ∧
    isAgentOrAdmin Role.ADMIN = true ∧
    (∃ st' c t',
      createComment exState
          { ticketId := "t2", userId := "a1", userRole := Role.ADMIN, isInternal := true } 5
        = Except.ok (st', c) ∧
      c.isInternal = true ∧
      findTicket st' "t2" = some t' ∧
      t'.status = exTicketOpen.status) :=
  ⟨by decide, by decide,
    createComment_stored_internal_preserves_status exState
      { ticketId := "t2", userId := "a1", userRole := Role.ADMIN, isInternal := true }
      5 exTicketOpen (by decide) (by decide) rfl⟩

/-- C7: `createComment` sets `firstResponseAt` exactly when the author is an
agent/admin and the field was null, and otherwise (USER author, or already
set) leaves it untouched — so once non-null it is never overwritten, and it
records the time of the first agent/admin comment. -/
theorem createComment_firstResponseAt
    (st : DBState) (req : CommentRequest) (now : Nat) (t : Ticket)
    (hfind : findTicket st req.ticketId = some t)
    (hallow : req.userRole = Role.USER → t.requesterId = req.userId) :
    ∃ st' c t', createComment st req now = Except.ok (st', c) ∧
      findTicket st' req.ticketId = some t' ∧
      t'.firstResponseAt =
        (if isAgentOrAdmin req.userRole = true ∧ t.firstResponseAt = none
          then some now else t.firstResponseAt) := by
  obtain ⟨st', c, hok, -, -, -, -, hft⟩ :=
    createComment_ok_spec st req now t hfind hallow
  exact ⟨st', c, _, hok, hft, rfl⟩

/-- C7 witness: an AGENT comment on ticket `t2`, which has no first response
yet, sets `firstResponseAt` to the comment time. -/
theorem createComment_firstResponseAt_witness :
    findTicket exState "t2" = some exTicketOpen ∧
    (∃ st' c t',
      createComment exState
          { ticketId := "t2", userId := "a1", userRole := Role.AGENT, isInternal := false } 5
        = Except.ok (st', c) ∧
      findTicket st' "t2" = some t' ∧
      t'.firstResponseAt =
        (if isAgentOrAdmin Role.AGENT = true ∧ exTicketOpen.firstResponseAt = none
          then some 5 else exTicketOpen.firstResponseAt)) :=
  ⟨by decide,
    createComment_firstResponseAt exState
      { ticketId := "t2", userId := "a1", userRole := Role.AGENT, isInternal := false }
      5 exTicketOpen (by decide) (fun h => by simp at h)⟩

/-- C10: every comment stored by `createComment` with `isInternal=true` has
an AGENT or ADMIN author; a USER submitting `isInternal=true` has the stored
flag silently coerced to false and the request is not rejected for it. -/
theorem createComment_internal_flag_coercion
    (st : DBState) (req : CommentRequest) (now : Nat) (t : Ticket)
    (hfind : findTicket st req.ticketId = some t)
    (hallow : req.userRole = Role.USER → t.requesterId = req.userId) :
    ∃ st' c, createComment st req now = Except.ok (st', c) ∧
      c ∈ st'.comments ∧
      (c.isInternal = true → isAgentOrAdmin req.userRole = true) ∧
      (req.userRole = Role.USER → c.isInternal = false) := by
  obtain ⟨st', c, hok, hci, -, -, hcm, -⟩ :=
    createComment_ok_spec st req now t hfind hallow
  refine ⟨st', c, hok, ?_, ?_, ?_⟩
  · rw [hcm]
    simp
  · intro h
    rw [hci] at h
    exact (Bool.and_eq_true _ _ |>.mp h).2
  · intro h
    rw [hci, h]
    simp [isAgentOrAdmin]

/-- C10 witness: the requester `u1` submitting `isInternal=true` on their
PENDING ticket `t1`: the comment is stored with `isInternal=false`. -/
theorem createComment_internal_flag_coercion_witness :
    findTicket exState "t1" = some exTicketPending ∧
    (∃ st' c,
      createComment exState
          { ticketId := "t1", userId := "u1", userRole := Role.USER, isInternal := true } 5
        = Except.ok (st', c) ∧
      c ∈ st'.comments ∧
      (c.isInternal = true → isAgentOrAdmin Role.USER = true) ∧
      (Role.USER = Role.USER → c.isInternal = false)) :=
  ⟨by decide,
    createComment_internal_flag_coercion exState
      { ticketId := "t1", userId := "u1", userRole := Role.USER, isInternal := true }
      5 exTicketPending (by decide) (fun _ => rfl)⟩

/-- C8: `createComment` is not atomic. On the OPEN ticket `t2`, an AGENT
public reply whose `prisma.ticket.update` fails leaves the comment persisted
(one comment, previously zero) while the ticket row, the activity log and
the agent session are all unchanged — although the successful run would have
set the status to PENDING, appended an activity entry and incremented the
session reply count. -/
theorem createComment_failure_keeps_comment_only :
    (createCommentTicketUpdateFails exState
        { ticketId := "t2", userId := "a1", userRole := Role.AGENT, isInternal := false } 5).map
        (fun st => (st.comments.length, st.tickets, st.activities, st.sessions))
      = some (1, exState.tickets, [], exState.sessions) ∧
    exState.comments.length = 0 ∧
    (createComment exState
        { ticketId := "t2", userId := "a1", userRole := Role.AGENT, isInternal := false } 5).toOption.map
        (fun p => ((findTicket p.1 "t2").map Ticket.status,
                   p.1.activities.length,
                   p.1.sessions.map AgentSession.replyCount))
      = some (some TicketStatus.PENDING, 1, [1]) := by decide

/-- C2 counterexample: a Zendesk export row with status `"open"` and an
explicit `solved_at` imports as an OPEN ticket whose `solvedAt` is non-null,
so `solvedAt != null` iff status SOLVED fails on imported tickets. -/
theorem import_solvedAt_iff_status_cex :
    (importTicket { zid := 1, zstatus := "open", solved_at := some 5, updated_at := some 9 }
        0 "tid" "rid").status ≠ TicketStatus.SOLVED ∧
    (importTicket { zid := 1, zstatus := "open", solved_at := some 5, updated_at := some 9 }
        0 "tid" "rid").solvedAt ≠ none := by decide

/-- C2 amended: for a ticket produced by the Zendesk import, `solvedAt` is
non-null iff the export row carries a `solved_at` value or its raw status
string is exactly `'solved'` or `'closed'`; the biconditional with the
imported status being SOLVED therefore fails whenever `solved_at` accompanies
a non-solved status (and for capitalized `'Solved'`/`'Closed'`, which map to
status SOLVED but, compared case-sensitively, get no `solvedAt`). -/
theorem import_solvedAt_iff (zt : ZendeskTicket) (now : Nat) (id rid : String) :
    (importTicket zt now id rid).solvedAt ≠ none ↔
      (zt.solved_at ≠ none ∨ zt.zstatus = "solved" ∨ zt.zstatus = "closed") := by
  unfold importTicket importSolvedAt
  cases h : zt.solved_at with
  | some d => simp [h]
  | none =>
    simp only [h]
    by_cases hc : (zt.zstatus == "solved" || zt.zstatus == "closed") = true
    · simp only [hc, if_true]
      simp only [Bool.or_eq_true, beq_iff_eq] at hc
      simp [hc]
    · simp only [hc]
      simp only [Bool.or_eq_true, beq_iff_eq] at hc
      push_neg at hc
      simp [hc.1, hc.2]

/-- C9 counterexample: a PATCH setting `autoDeleteAttachmentsDays` to 0 is
not rejected — the update succeeds and changes the stored settings, so the
below-1 rejection does not hold for the fourth rule's threshold. -/
theorem patchSettings_days_below_one_accepted_cex :
    (patchSettings exSettings
        { pendingTicketReminderHours := none, autoCloseHours := none
          autoSolveHours := none, autoDeleteAttachmentsDays := some 0 }).toOption
      = some { exSettings with autoDeleteAttachmentsDays := 0 } ∧
    ({ exSettings with autoDeleteAttachmentsDays := 0 } : Settings) ≠ exSettings := by
  decide

/-- C9 amended: the settings update rejects, with a ValidationError and
without applying the update, any request whose `pendingTicketReminderHours`,
`autoCloseHours` or `autoSolveHours` is below 1; when none of those three is
below 1 the update is applied in full — `autoDeleteAttachmentsDays` is never
validated. -/
theorem patchSettings_validation (s : Settings) (u : SettingsUpdate) :
    ((belowOne u.pendingTicketReminderHours || belowOne u.autoCloseHours
        || belowOne u.autoSolveHours) = true →
      patchSettings s u = Except.error ApiError.ValidationError) ∧
    ((belowOne u.pendingTicketReminderHours || belowOne u.autoCloseHours
        || belowOne u.autoSolveHours) = false →
      patchSettings s u = Except.ok (applySettingsUpdate s u)) := by
  unfold patchSettings
  cases h1 : belowOne u.pendingTicketReminderHours <;>
    cases h2 : belowOne u.autoCloseHours <;>
    cases h3 : belowOne u.autoSolveHours <;> simp

/-- C9 amended witness: a PATCH with `autoSolveHours = 0` is rejected. -/
theorem patchSettings_validation_witness :
    (belowOne (none : Option Int) || belowOne (none : Option Int) || belowOne (some 0)) = true ∧
    patchSettings exSettings
        { pendingTicketReminderHours := none, autoCloseHours := none
          autoSolveHours := some 0, autoDeleteAttachmentsDays := none }
      = Except.error ApiError.ValidationError :=
  ⟨by decide,
    (patchSettings_validation exSettings
        { pendingTicketReminderHours := none, autoCloseHours := none
          autoSolveHours := some 0, autoDeleteAttachmentsDays := none }).1 (by decide)⟩

/-- C4: for every agent appearing in the per-ticket contribution report, the
reported aggregates and percentage match the specification:
`timeSpent` is the sum of the agent's time-entry durations, `replyCount`
counts every comment authored by an agent/admin — internal notes included,
unfiltered — and the percentage is
`round((timeShare*0.6 + replyShare*0.4) * 100)` with the zero-total
conventions. -/
theorem ticketContributions_formula (entries : List TimeEntry)
    (comments : List AuthoredComment) (k : String) (c : Contrib) (pct : ℤ)
    (h : (k, c, pct) ∈ (ticketContributions entries comments).contribs) :
    c.timeSpent = specTimeSpent entries k ∧
    c.replyCount = specReplyCount comments k ∧
    pct = specContributionPercent c.timeSpent c.replyCount
            (ticketContributions entries comments).totalTime
            (ticketContributions entries comments).totalReplies := by
  have hc : (ticketContributions entries comments).contribs
      = (agentContributions entries comments).map
          (fun p => (p.1, p.2, contributionPercentage p.2
            (contribTotalTime (agentContributions entries comments))
            (contribTotalReplies (agentContributions entries comments)))) := rfl
  rw [hc, List.mem_map] at h
  obtain ⟨p, hp, heq⟩ := h
  rw [Prod.ext_iff] at heq
  obtain ⟨hk, heq2⟩ := heq
  rw [Prod.ext_iff] at heq2
  obtain ⟨hcc, hpct⟩ := heq2
  simp only at hk hcc hpct
  subst hk
  subst hcc
  subst hpct
  have hlk : lookupContrib (agentContributions entries comments) p.1 = p.2 :=
    lookupContrib_of_mem _ (nodup_keys_agentContributions entries comments) p hp
  rw [lookupContrib_agentContributions] at hlk
  refine ⟨by rw [← hlk], by rw [← hlk], ?_⟩
  rw [contributionPercentage_eq_spec]
  rfl

/-- C4 witness: agent A of the worked example, reported as 600 seconds,
3 replies, 66 percent. -/
theorem ticketContributions_formula_witness :
    (("A", ({ timeSpent := 600, replyCount := 3 } : Contrib), (66 : ℤ))
        ∈ (ticketContributions exEntries exComments).contribs) ∧
    (({ timeSpent := 600, replyCount := 3 } : Contrib).timeSpent
        = specTimeSpent exEntries "A" ∧
      ({ timeSpent := 600, replyCount := 3 } : Contrib).replyCount
        = specReplyCount exComments "A" ∧
      (66 : ℤ) = specContributionPercent 600 3
        (ticketContributions exEntries exComments).totalTime
        (ticketContributions exEntries exComments).totalReplies) := by
  have hmem : ("A", ({ timeSpent := 600, replyCount := 3 } : Contrib), (66 : ℤ))
      ∈ (ticketContributions exEntries exComments).contribs := by
    rw [exContribs_eval]
    simp
  exact ⟨hmem, ticketContributions_formula exEntries exComments "A" _ 66 hmem⟩

/-- C3 counterexample: one agent with a 100-second time entry and no
agent/admin comments: `totalTime = 100 > 0`, one contributing agent, yet the
percentages sum to 60, far outside 100 ± 1. -/
theorem contributions_sum_not_100_cex :
    0 < (ticketContributions [{ agentId := "a", duration := some 100 }] []).totalTime ∧
    (ticketContributions [{ agentId := "a", duration := some 100 }] []).contribs.length = 1 ∧
    ((ticketContributions [{ agentId := "a", duration := some 100 }] []).contribs.map
        (fun p => p.2.2)).sum = 60 ∧
    ¬ (|((ticketContributions [{ agentId := "a", duration := some 100 }] []).contribs.map
          (fun p => p.2.2)).sum - 100|
        ≤ ((ticketContributions [{ agentId := "a", duration := some 100 }] []).contribs.length : ℤ)) := by
  have hm : agentContributions [{ agentId := "a", duration := some 100 }] []
      = [("a", { timeSpent := 100, replyCount := 0 })] := by decide
  have hsum : ((ticketContributions [{ agentId := "a", duration := some 100 }] []).contribs.map
      (fun p => p.2.2)).sum = 60 := by
    simp [ticketContributions, hm, contribTotalTime, contribTotalReplies,
      contributionPercentage, jsRound]
    norm_num
  have hlen : (ticketContributions [{ agentId := "a", duration := some 100 }] []).contribs.length = 1 := by
    simp [ticketContributions, hm]
  refine ⟨by decide, hlen, hsum, ?_⟩
  rw [hsum, hlen]
  decide

/-- C3 amended: whenever both `totalTime` and `totalReplies` are nonzero,
the per-ticket contribution percentages sum to 100 up to a rounding error of
at most 1 per contributing agent. -/
theorem ticketContributions_sum_bound (entries : List TimeEntry)
    (comments : List AuthoredComment)
    (hT : 0 < (ticketContributions entries comments).totalTime)
    (hR : 0 < (ticketContributions entries comments).totalReplies) :
    |((ticketContributions entries comments).contribs.map (fun p => p.2.2)).sum - 100|
      ≤ ((ticketContributions entries comments).contribs.length : ℤ) := by
  have hT' : 0 < contribTotalTime (agentContributions entries comments) := hT
  have hR' : 0 < contribTotalReplies (agentContributions entries comments) := hR
  set m := agentContributions entries comments with hm
  set tT := contribTotalTime m with htT
  set tR := contribTotalReplies m with htR
  have hmap : (ticketContributions entries comments).contribs.map (fun p => p.2.2)
      = m.map (fun p => contributionPercentage p.2 tT tR) := by
    show (m.map (fun p => (p.1, p.2, contributionPercentage p.2 tT tR))).map
      (fun p => p.2.2) = _
    rw [List.map_map]
    rfl
  have hlen : (ticketContributions entries comments).contribs.length = m.length := by
    show (m.map (fun p => (p.1, p.2, contributionPercentage p.2 tT tR))).length = _
    rw [List.length_map]
  have hpc : m.map (fun p => contributionPercentage p.2 tT tR)
      = (m.map (fun p => exactContribution p.2 tT tR)).map jsRound := by
    rw [List.map_map]
    exact List.map_congr_left
      (fun p _ => contributionPercentage_eq_jsRound_exact p.2 tT tR hT' hR')
  rw [hmap, hlen, hpc]
  set l := m.map (fun p => exactContribution p.2 tT tR) with hl
  have hsum : l.sum = 100 := sum_exactContribution_eq m tT tR rfl rfl hT' hR'
  have hlenl : l.length = m.length := by
    rw [hl, List.length_map]
  have hb := sum_jsRound_sub_le l
  rw [hsum, hlenl] at hb
  have hcast : ((l.map jsRound).sum : ℚ) = (l.map (fun q => (jsRound q : ℚ))).sum := by
    rw [Int.cast_list_sum, List.map_map]
    rfl
  have hb2 : |((l.map jsRound).sum : ℚ) - 100| ≤ (m.length : ℚ) := by
    rw [hcast]
    calc |(l.map (fun q => (jsRound q : ℚ))).sum - 100| ≤ (m.length : ℚ) / 2 := hb
      _ ≤ (m.length : ℚ) := by
          have hnn : (0 : ℚ) ≤ (m.length : ℚ) := by positivity
          linarith
  exact_mod_cast hb2

/-- C3 amended witness: the spec's worked example (A: 600s and 3 replies,
B: 400s and 1 reply) has both totals nonzero and its percentages sum within
2 of 100. -/
theorem ticketContributions_sum_bound_witness :
    0 < (ticketContributions exEntries exComments).totalTime ∧
    0 < (ticketContributions exEntries exComments).totalReplies ∧
    |((ticketContributions exEntries exComments).contribs.map (fun p => p.2.2)).sum - 100|
      ≤ ((ticketContributions exEntries exComments).contribs.length : ℤ) :=
  ⟨by decide, by decide,
    ticketContributions_sum_bound exEntries exComments (by decide) (by decide)⟩
